import Mathlib

/-!
Verification development for the digital-twin reactor plant simulator.

Each Python module that the checked claims touch is shallowly embedded as
Lean definitions over the rationals (exact arithmetic standing in for the
floating-point arithmetic of the source), and the claims are settled as
theorems about those definitions.

Embedded modules:
* `models/reactor_model.py`    -> `ReactorModel`
* `models/grid_model.py`       -> `GridModel`
* `environment/reactor_controller.py` -> `ReactorController`
* `controllers/base_controller.py` and `controllers/pid_controller.py`
                               -> `BaseController.validateInit`, `PIDController`
* `analysis/scenario_definitions.py`  -> `get_scenarios` and its helpers
* `analysis/metrics_engine.py` -> `MetricsEngine.calculate`
-/

/-- Clamp a value the way `np.clip(x, lo, hi)` does: equivalent to
`np.minimum(hi, np.maximum(lo, x))`. -/
def npClip (x lo hi : ℚ) : ℚ := min hi (max lo x)

/-- Python `int(q)` on a float: truncation toward zero. -/
def pyInt (q : ℚ) : ℤ := if q < 0 then ⌈q⌉ else ⌊q⌋

/-! ## ReactorModel (`models/reactor_model.py`)

The class holds the configuration constants extracted in `__init__`
together with the mutable state (`power_level`, `precursor_concentrations`,
`T_fuel`, `T_moderator`); `step` returns the updated model and the thermal
power in MWth that the Python method returns. -/

structure ReactorModel where
  beta_i : List ℚ
  lambda_i : List ℚ
  Lambda : ℚ
  beta_total : ℚ
  alpha_f : ℚ
  alpha_c : ℚ
  C_f : ℚ
  C_c : ℚ
  Omega : ℚ
  P0 : ℚ
  T_inlet : ℚ
  T_coolant0 : ℚ
  T_fuel0 : ℚ
  power_level : ℚ
  precursor_concentrations : List ℚ
  T_fuel : ℚ
  T_moderator : ℚ
deriving DecidableEq, Repr

/-- `ReactorModel.reset`: sets power, linearly scaled temperatures, and the
equilibrium precursor concentrations (skipped, i.e. filled with zero, when
the prompt generation time is numerically negligible). -/
def ReactorModel.reset (m : ReactorModel) (initial_power_fraction : ℚ) : ReactorModel :=
  { m with
    power_level := initial_power_fraction
    T_fuel := m.T_fuel0 * initial_power_fraction
    T_moderator := m.T_coolant0 * initial_power_fraction
    precursor_concentrations :=
      if 1e-9 < m.Lambda then
        List.zipWith (fun b l => b / (l * m.Lambda) * initial_power_fraction)
          m.beta_i m.lambda_i
      else
        m.precursor_concentrations.map (fun _ => 0) }

/-- `ReactorModel.step`: one Euler step of point kinetics followed by the
lumped thermal model; mirrors the statement order of the Python method, in
particular `self.power_level` is updated before the precursor derivative is
formed, and `self.T_fuel` is updated before the coolant derivative is
formed.  Returns the new model and the returned thermal power in MWth. -/
def ReactorModel.step (m : ReactorModel) (dt rod_reactivity : ℚ) : ReactorModel × ℚ :=
  let delta_T_f := m.T_fuel - m.T_fuel0
  let delta_T_c := m.T_moderator - m.T_coolant0
  let rho_feedback := m.alpha_f * delta_T_f + m.alpha_c * delta_T_c
  let total_reactivity := rho_feedback + rod_reactivity
  let lambda_c_sum :=
    (List.zipWith (fun l c => l * c) m.lambda_i m.precursor_concentrations).sum
  let dp_dt := ((total_reactivity - m.beta_total) / m.Lambda) * m.power_level + lambda_c_sum
  let power_level' := m.power_level + dp_dt * dt
  let precursors' :=
    List.zipWith (fun bl c => c + ((bl.1 / m.Lambda) * power_level' - bl.2 * c) * dt)
      (m.beta_i.zip m.lambda_i) m.precursor_concentrations
  let generated_power_mw := power_level' * m.P0
  let dtf_dt := (1 / m.C_f) * (generated_power_mw - m.Omega * (m.T_fuel - m.T_moderator))
  let T_fuel' := m.T_fuel + dtf_dt * dt
  let dtc_dt := (1 / m.C_c) * (m.Omega * (T_fuel' - m.T_moderator))
  let T_moderator' := m.T_moderator + dtc_dt * dt
  let power_final := max 0 power_level'
  ({ m with
      power_level := power_final
      precursor_concentrations := precursors'
      T_fuel := T_fuel'
      T_moderator := T_moderator' },
    power_final * m.P0)

/-- Run `ReactorModel.step` over a list of `(dt, rod_reactivity)` inputs,
collecting the thermal power returned by each call. -/
def ReactorModel.run : ReactorModel → List (ℚ × ℚ) → ReactorModel × List ℚ
  | m, [] => (m, [])
  | m, (dt, rod) :: rest =>
      let s := m.step dt rod
      let r := s.1.run rest
      (r.1, s.2 :: r.2)

/-- The precursor update that claim C3 asserts: one explicit-Euler step with
the production term evaluated at the start-of-step power. -/
def eulerPrecursorsSpec (m : ReactorModel) (dt : ℚ) : List ℚ :=
  List.zipWith (fun bl c => c + ((bl.1 / m.Lambda) * m.power_level - bl.2 * c) * dt)
    (m.beta_i.zip m.lambda_i) m.precursor_concentrations

/-! ## GridModel (`models/grid_model.py`)

The load-profile function attribute is modelled as a total function: the
Python attribute starts out as `None` but `reset` always installs a
profile before any `step` is reachable in the orchestrator. -/

/-- The exact rational value of the IEEE-754 double `np.pi` used by the
rotor-angle update. -/
def numpy_pi : ℚ := 7074237752028440 / 2251799813685248

structure GridModel where
  H : ℚ
  D : ℚ
  f_nominal : ℚ
  S_base : ℚ
  frequency : ℚ
  omega_pu : ℚ
  delta : ℚ
  current_demand : ℚ
  load_profile_func : ℚ → ℤ → ℚ

/-- `GridModel.reset`: nominal frequency, per-unit speed 1, zero rotor
angle, and a constant-load fallback profile. -/
def GridModel.reset (g : GridModel) (initial_load_mw : ℚ) : GridModel :=
  { g with
    frequency := g.f_nominal
    omega_pu := 1
    delta := 0
    current_demand := initial_load_mw
    load_profile_func := fun _ _ => initial_load_mw }

/-- `GridModel.set_load_profile`. -/
def GridModel.set_load_profile (g : GridModel) (load_func : ℚ → ℤ → ℚ) : GridModel :=
  { g with load_profile_func := load_func }

/-- The per-unit speed derivative computed inside `GridModel.step`:
`d(omega_pu)/dt = (1 / 2H) * (P_m - P_e - D * (omega_pu - 1))` with both
powers converted to per-unit on the system base. -/
def GridModel.d_omega_pu_dt (g : GridModel) (mechanical_power_mw time_s : ℚ)
    (step_num : ℤ) : ℚ :=
  let p_m_pu := mechanical_power_mw / g.S_base
  let p_e_pu := g.load_profile_func time_s step_num / g.S_base
  (1 / (2 * g.H)) * (p_m_pu - p_e_pu - g.D * (g.omega_pu - 1))

/-- `GridModel.step`: swing equation advance; the frequency and the
rotor-angle derivative are formed from the already-updated per-unit speed,
as in the source. -/
def GridModel.step (g : GridModel) (dt mechanical_power_mw time_s : ℚ)
    (step_num : ℤ) : GridModel :=
  let demand := g.load_profile_func time_s step_num
  let omega_pu' := g.omega_pu + g.d_omega_pu_dt mechanical_power_mw time_s step_num * dt
  let frequency' := omega_pu' * g.f_nominal
  let d_delta_dt := (omega_pu' - 1) * 2 * numpy_pi * g.f_nominal
  { g with
    current_demand := demand
    omega_pu := omega_pu'
    frequency := frequency'
    delta := g.delta + d_delta_dt * dt }

/-! ## Inner reactor regulator (`environment/reactor_controller.py`) -/

structure ReactorController where
  kp : ℚ
  ki : ℚ
  dt : ℚ
  setpoint : ℚ
  integral : ℚ
  reactivity_limits : ℚ × ℚ
deriving DecidableEq, Repr

/-- `ReactorController.__init__`: tuned fixed gains, the 306.5 C default
setpoint, zero integral, and the fixed symmetric reactivity limits. -/
def ReactorController.init (dt : ℚ) : ReactorController :=
  { kp := 0.00008
    ki := 0.00002
    dt := dt
    setpoint := 306.5
    integral := 0
    reactivity_limits := (-0.005, 0.005) }

/-- `ReactorController.reset`: zero the integral term, install a setpoint. -/
def ReactorController.reset (c : ReactorController) (setpoint : ℚ := 306.5) :
    ReactorController :=
  { c with integral := 0, setpoint := setpoint }

/-- `ReactorController.step`: PI update with integral anti-windup clamp to
`[-5, 5]` and output clamp to the configured reactivity limits; a
non-positive `dt` short-circuits to a zero command. -/
def ReactorController.step (c : ReactorController) (current_moderator_temp : ℚ) :
    ReactorController × ℚ :=
  if c.dt ≤ 0 then (c, 0)
  else
    let error := c.setpoint - current_moderator_temp
    let integral' := npClip (c.integral + error * c.dt) (-5) 5
    let reactivity_output := c.kp * error + c.ki * integral'
    ({ c with integral := integral' },
      npClip reactivity_output c.reactivity_limits.1 c.reactivity_limits.2)

/-! ## Controller construction (`controllers/base_controller.py`,
`controllers/pid_controller.py`)

The Python `config` argument can be an arbitrary object; only whether it
is a `dict`, and the values it holds, matter to construction.  Construction
failure (a raised `TypeError`/`ValueError`) is modelled by `Except`. -/

/-- A value stored in a controller configuration dictionary: a number, or a
two-element sequence (used for `output_limits`). -/
inductive PyVal where
  | num (q : ℚ)
  | pair (a b : ℚ)
deriving DecidableEq, Repr

/-- The object passed as the `config` argument: a dictionary or anything
else. -/
inductive PyConfig where
  | dict (entries : List (String × PyVal))
  | notDict
deriving DecidableEq, Repr

/-- The validation performed by `BaseController.__init__`: reject a
non-dictionary config and a non-positive time step. -/
def BaseController.validateInit (config : PyConfig) (dt : ℚ) : Except String Unit :=
  match config with
  | .notDict => .error "TypeError: Controller config must be a dictionary."
  | .dict _ =>
      if dt ≤ 0 then .error "ValueError: Time step dt must be a positive number."
      else .ok ()

/-- `float(config.get(key, default))`: succeeds with the default when the
key is absent, fails with a `TypeError` when the stored value is not a
number. -/
def getFloatParam (entries : List (String × PyVal)) (key : String) (dflt : ℚ) :
    Except String ℚ :=
  match entries.lookup key with
  | none => .ok dflt
  | some (.num q) => .ok q
  | some (.pair _ _) => .error "TypeError: float() argument must be a number"

structure PIDController where
  kp : ℚ
  ki : ℚ
  kd : ℚ
  setpoint : ℚ
  output_min : ℚ
  output_max : ℚ
  deriv_filter_tau : ℚ
  use_filter : Bool
  dt : ℚ
  integral : ℚ
  previous_error : ℚ
  derivative_state : ℚ
deriving DecidableEq, Repr

/-- `PIDController.__init__`: base-class validation, then parameter loading
with `.get` defaults, the `output_min < output_max` check, and the
derivative-filter decision. -/
def PIDController.init (config : PyConfig) (dt : ℚ) : Except String PIDController := do
  BaseController.validateInit config dt
  match config with
  | .notDict => .error "TypeError: Controller config must be a dictionary."
  | .dict entries => do
      let kp ← getFloatParam entries "kp" 0.20
      let ki ← getFloatParam entries "ki" 0.04
      let kd ← getFloatParam entries "kd" 0.05
      let setpoint ← getFloatParam entries "setpoint" 1800.0
      let limits ← (match entries.lookup "output_limits" with
        | none => Except.ok ((0 : ℚ), (1 : ℚ))
        | some (.pair a b) => Except.ok (a, b)
        | some (.num _) => Except.error "TypeError: output_limits is not subscriptable")
      if limits.1 ≥ limits.2 then
        .error "ValueError: PID output_min must be less than output_max."
      else do
        let deriv_filter_tau ← getFloatParam entries "deriv_filter_tau" 0.05
        let use_filter := if 0 < dt then decide (dt * 1.5 < deriv_filter_tau) else false
        .ok { kp := kp, ki := ki, kd := kd, setpoint := setpoint,
              output_min := limits.1, output_max := limits.2,
              deriv_filter_tau := deriv_filter_tau, use_filter := use_filter,
              dt := dt, integral := 0, previous_error := 0, derivative_state := 0 }

/-- `PIDController.step`: a missing measurement index (observation shorter
than 5) substitutes the setpoint; PID terms with optional derivative
filter, conditional integration (anti-windup), and `np.clip` of the final
output.  Returns the updated controller and the scalar action. -/
def PIDController.step (c : PIDController) (observation : List ℚ) :
    PIDController × ℚ :=
  if c.dt ≤ 0 then (c, 0.5 * (c.output_max + c.output_min))
  else
    let measurement := (observation[4]?).getD c.setpoint
    let error := c.setpoint - measurement
    let p_term := c.kp * error
    let raw_derivative := (error - c.previous_error) / c.dt
    let filtered :=
      if c.use_filter then
        let ds := c.derivative_state +
          ((raw_derivative - c.derivative_state) / c.deriv_filter_tau) * c.dt
        (ds, ds)
      else (raw_derivative, c.derivative_state)
    let d_term := c.kd * filtered.1
    let output_before_i := p_term + d_term
    let integral' :=
      if ¬(c.output_max ≤ output_before_i ∧ 0 < error) ∧
         ¬(output_before_i ≤ c.output_min ∧ error < 0) then
        c.integral + error * c.dt
      else c.integral
    let i_term := c.ki * integral'
    let output_final := npClip (p_term + i_term + d_term) c.output_min c.output_max
    ({ c with integral := integral', previous_error := error,
              derivative_state := filtered.2 },
      output_final)

/-! ## Scenario library (`analysis/scenario_definitions.py`) -/

/-- `constant_load`. -/
def constant_load (load_mw : ℚ) : ℚ → ℤ → ℚ := fun _ _ => load_mw

/-- `gradual_load_change`: linear ramp from `initial` to `final` over the
window `[start_t, start_t + duration)`, with the duration floored at
`1e-6`. -/
def gradual_load_change (initial final start_t duration : ℚ) : ℚ → ℤ → ℚ :=
  let d := if duration ≤ 1e-6 then 1e-6 else duration
  fun time_s _ =>
    if time_s < start_t then initial
    else if time_s < start_t + d then initial + (final - initial) * ((time_s - start_t) / d)
    else final

/-- `step_load_change`: `final` once `time_s >= step_t`, otherwise
`initial`. -/
def step_load_change (initial final step_t : ℚ) : ℚ → ℤ → ℚ :=
  fun time_s _ => if step_t ≤ time_s then final else initial

/-- The scan of `multi_step_load_profile`: keep the last load whose start
time has been reached, stopping at the first that has not. -/
def multiStepScan : ℚ → List (ℚ × ℚ) → ℚ → ℚ
  | cur, [], _ => cur
  | cur, (load, start_time) :: rest, time_s =>
      if start_time ≤ time_s then multiStepScan load rest time_s else cur

/-- `multi_step_load_profile`. -/
def multi_step_load_profile (steps : List (ℚ × ℚ)) : ℚ → ℤ → ℚ :=
  fun time_s _ => multiStepScan (steps.headD (0, 0)).1 steps time_s

/-- The `adversarial_noise` dictionary of a scenario. -/
structure AdversarialNoise where
  active : Bool
  initial_magnitude : ℚ
  final_magnitude : ℚ
  bias_magnitude : ℚ
deriving DecidableEq, Repr

/-- An entry of a scenario's `env_modifications` list. -/
inductive EnvModification where
  | parameter_ramp (parameter_path : List String)
      (start_value end_value start_time duration : ℚ)
  | grid_power_imbalance (imbalance_mw start_time end_time : ℚ)
deriving DecidableEq, Repr

/-- One scenario specification dictionary.  `reset_options := none` models
a dictionary in which the `reset_options` key is absent; fields that a
scenario definition omits take the structure defaults, matching the keys
absent from the corresponding Python dictionary. -/
structure ScenarioSpec where
  description : String
  load_profile_func : ℚ → ℤ → ℚ
  max_steps : ℤ
  reset_options : Option (List (String × ℚ)) := none
  env_modifications : List EnvModification := []
  adversarial_noise : Option AdversarialNoise := none
  is_efficiency_probe : Bool := false
  is_adversarial_drill : Bool := false
  is_domain_randomization_drill : Bool := false

/-- The nested core configuration: named sections of named rational
parameters. -/
def CoreConfig : Type := List (String × List (String × ℚ))

/-- `core_config['simulation']['dt']`, as an optional lookup. -/
def simDt (core_config : CoreConfig) : Option ℚ :=
  (List.lookup "simulation" core_config).bind (fun s => List.lookup "dt" s)

/-- `core_config.get('initial_conditions', {}).get('electrical_load_mw', 3008.5)`. -/
def initialLoadBase (core_config : CoreConfig) : ℚ :=
  ((List.lookup "initial_conditions" core_config).bind
    (fun s => List.lookup "electrical_load_mw" s)).getD 3008.5

/-- `core_config.get('coupling', {}).get('eta_transfer', 0.98)`. -/
def etaBase (core_config : CoreConfig) : ℚ :=
  ((List.lookup "coupling" core_config).bind
    (fun s => List.lookup "eta_transfer" s)).getD 0.98

/-- `get_scenarios`: the full scenario library.  A missing required
configuration key (the `KeyError` branch) yields the empty mapping; the
final pass gives every scenario that lacks a `reset_options` entry the
empty mapping, leaving present entries untouched. -/
def get_scenarios (core_config : CoreConfig) : List (String × ScenarioSpec) :=
  match simDt core_config with
  | none => []
  | some sim_dt =>
    let initial_load_base := initialLoadBase core_config
    let eta_base := etaBase core_config
    let scenarios : List (String × ScenarioSpec) := [
      ("baseline_steady_state",
        { description := "Baseline steady-state operation at 90% power."
          load_profile_func := constant_load initial_load_base
          max_steps := pyInt (500 / sim_dt)
          reset_options := some [("initial_power_level", 0.9)] }),
      ("gradual_load_increase_10pct",
        { description := "Gradual load ramp from 90% to 100%."
          load_profile_func :=
            gradual_load_change (initial_load_base * 0.9) initial_load_base 20.0 300.0
          max_steps := pyInt (400 / sim_dt)
          reset_options := some [("initial_power_level", 0.9)] }),
      ("sudden_load_increase_5pct",
        { description := "Sudden +5% load increase from nominal."
          load_profile_func :=
            step_load_change initial_load_base (initial_load_base * 1.05) 20.0
          max_steps := pyInt (300 / sim_dt) }),
      ("steady_state_efficiency_probe",
        { description := "RL Drill: A long, quiet hold to enforce control efficiency."
          load_profile_func := constant_load initial_load_base
          max_steps := pyInt (1800 / sim_dt)
          is_efficiency_probe := true }),
      ("deceptive_sensor_noise",
        { description := "Adversarial Test: High, dynamic sensor noise during a load ramp."
          load_profile_func :=
            gradual_load_change (initial_load_base * 0.9) initial_load_base 20.0 300.0
          max_steps := pyInt (400 / sim_dt)
          reset_options := some [("initial_power_level", 0.9)]
          adversarial_noise := some { active := true, initial_magnitude := 0.05,
                                      final_magnitude := 0.15, bias_magnitude := 8.0 }
          is_adversarial_drill := true }),
      ("parameter_randomization_drills",
        { description := "RL Drill: Train against randomized physics for generalization."
          load_profile_func := constant_load initial_load_base
          max_steps := pyInt (400 / sim_dt)
          is_domain_randomization_drill := true
          is_adversarial_drill := true }),
      ("cascading_grid_fault_and_recovery",
        { description := "Adversarial Drill: A cascading grid fault followed by recovery demand."
          load_profile_func := multi_step_load_profile [
            (initial_load_base, 0.0),
            (initial_load_base * 0.8, 20.0),
            (initial_load_base * 0.85, 120.0),
            (initial_load_base * 1.05, 150.0)]
          max_steps := pyInt (500 / sim_dt)
          env_modifications := [
            EnvModification.grid_power_imbalance 50.0 20.0 25.0]
          is_adversarial_drill := true }),
      ("combined_challenge_final_exam",
        { description := "Final Exam: Compound failure with grid fault, component degradation, and noise."
          load_profile_func :=
            step_load_change initial_load_base (initial_load_base * 1.1) 20.0
          max_steps := pyInt (400 / sim_dt)
          env_modifications := [
            EnvModification.parameter_ramp ["coupling", "eta_transfer"]
              eta_base (eta_base * 0.90) 50.0 150.0]
          adversarial_noise := some { active := true, initial_magnitude := 0.02,
                                      final_magnitude := 0.05, bias_magnitude := 2.0 }
          is_adversarial_drill := true })]
    scenarios.map (fun ns =>
      (ns.1, if ns.2.reset_options.isSome then ns.2
             else { ns.2 with reset_options := some [] }))

/-! ## MetricsEngine (`analysis/metrics_engine.py`)

The input DataFrame is abstracted to its shape (column names, row count)
and each numeric expression assigned inside the `try` block of
`calculate` is abstracted to an outcome: `.error ()` when evaluating it
raises, `.ok none` when its guarding condition skips the assignment, and
`.ok (some v)` when it assigns the value `v`.  The control flow around
those outcomes — the short-input guard, the dictionary of NaN defaults,
the sequential assignments, and the catch-all `except` — is embedded
exactly; `calculate` is a total function, so no call can raise. -/

structure DataFrame where
  columns : List String
  nrows : ℕ
deriving DecidableEq, Repr

namespace MetricsEngine

/-- `MetricsEngine.METRIC_KEYS`: the fixed 24-key result set. -/
def METRIC_KEYS : List String := [
  "transient_severity_score", "grid_load_following_index",
  "agility_response_time_index", "integrated_thermal_margin_violation_c_s",
  "thermal_transient_burden", "core_power_oscillation_index",
  "max_rotor_angle_deviation_rad", "negative_damping_events", "control_policy_entropy",
  "max_overshoot_speed_pct", "max_undershoot_speed_pct", "iae_freq_hz_s", "ise_freq_hz_s",
  "time_over_fuel_temp_limit_s", "time_over_speed_limit_s", "time_outside_freq_limit_s",
  "total_time_unsafe_s", "max_fuel_temp_c", "max_speed_rpm", "max_freq_deviation_hz",
  "min_freq_nadir_hz", "control_effort_valve_abs_sum", "control_effort_valve_sq_sum",
  "valve_reversals"]

/-- The metric keys assigned inside the `try` block of `calculate`, in
source order. -/
def bodyKeys : List String := [
  "grid_load_following_index",
  "agility_response_time_index",
  "integrated_thermal_margin_violation_c_s",
  "thermal_transient_burden",
  "core_power_oscillation_index",
  "max_rotor_angle_deviation_rad",
  "negative_damping_events",
  "control_policy_entropy",
  "max_freq_deviation_hz",
  "min_freq_nadir_hz",
  "max_speed_rpm",
  "max_fuel_temp_c",
  "max_overshoot_speed_pct",
  "max_undershoot_speed_pct",
  "iae_freq_hz_s",
  "ise_freq_hz_s",
  "control_effort_valve_abs_sum",
  "control_effort_valve_sq_sum",
  "valve_reversals",
  "transient_severity_score",
  "time_over_fuel_temp_limit_s",
  "time_over_speed_limit_s",
  "time_outside_freq_limit_s",
  "total_time_unsafe_s"]

/-- Python dictionary assignment `d[k] = v`: replace the binding if the key
is present, append it otherwise. -/
def dictSet (m : List (String × Option ℚ)) (k : String) (v : Option ℚ) :
    List (String × Option ℚ) :=
  match m with
  | [] => [(k, v)]
  | (k', v') :: rest => if k' = k then (k, v) :: rest else (k', v') :: dictSet rest k v

/-- Execute the assignments of the `try` block in order over the metrics
dictionary; the first raising expression aborts the block. -/
def runBody (m : List (String × Option ℚ)) :
    List (String × Except Unit (Option ℚ)) → Except Unit (List (String × Option ℚ))
  | [] => .ok m
  | (_, .error _) :: _ => .error ()
  | (_, .ok none) :: rest => runBody m rest
  | (k, .ok (some v)) :: rest => runBody (dictSet m k (some v)) rest

/-- `MetricsEngine.calculate`: initialize every key to NaN (modelled as
`none`), return that mapping outright for an empty input, a missing
`time_s` column, or fewer than 20 rows, otherwise run the assignment block
and fall back to the all-NaN mapping if any assignment raises. -/
def calculate (results_df : DataFrame)
    (outcomes : List (Except Unit (Option ℚ))) : List (String × Option ℚ) :=
  let metrics := METRIC_KEYS.map (fun k => (k, (none : Option ℚ)))
  if results_df.nrows = 0 ∨ results_df.columns = [] ∨
     "time_s" ∉ results_df.columns ∨ results_df.nrows < 20 then
    metrics
  else
    match runBody metrics (bodyKeys.zip outcomes) with
    | .ok m => m
    | .error _ => METRIC_KEYS.map (fun k => (k, (none : Option ℚ)))

end MetricsEngine

/-! ## Helper lemmas -/

lemma npClip_le (x lo hi : ℚ) : npClip x lo hi ≤ hi := min_le_left _ _

lemma le_npClip (x lo hi : ℚ) (h : lo ≤ hi) : lo ≤ npClip x lo hi :=
  le_min h (le_max_left _ _)

lemma ReactorModel.step_power_nonneg (m : ReactorModel) (dt rod : ℚ) :
    0 ≤ (m.step dt rod).1.power_level :=
  le_max_left 0 _

lemma ReactorModel.step_P0 (m : ReactorModel) (dt rod : ℚ) :
    (m.step dt rod).1.P0 = m.P0 := rfl

lemma ReactorModel.step_out_nonneg (m : ReactorModel) (dt rod : ℚ) (h : 0 ≤ m.P0) :
    0 ≤ (m.step dt rod).2 :=
  mul_nonneg (le_max_left 0 _) h

lemma ReactorModel.run_nonneg (inputs : List (ℚ × ℚ)) :
    ∀ m : ReactorModel, 0 ≤ m.power_level → 0 ≤ m.P0 →
      0 ≤ (m.run inputs).1.power_level ∧ ∀ y ∈ (m.run inputs).2, 0 ≤ y := by
  induction inputs with
  | nil =>
      intro m hp _
      exact ⟨hp, by simp [ReactorModel.run]⟩
  | cons x rest ih =>
      intro m _ hP0
      obtain ⟨dt, rod⟩ := x
      have h1 : 0 ≤ (m.step dt rod).1.power_level := m.step_power_nonneg dt rod
      have h2 : 0 ≤ (m.step dt rod).1.P0 := (m.step_P0 dt rod) ▸ hP0
      have hr := ih (m.step dt rod).1 h1 h2
      refine ⟨by simpa [ReactorModel.run] using hr.1, ?_⟩
      intro y hy
      simp only [ReactorModel.run, List.mem_cons] at hy
      rcases hy with hy | hy
      · exact hy ▸ m.step_out_nonneg dt rod hP0
      · exact hr.2 y hy

/-! ## Claim theorems -/

/-- Claim C1: for every valid reactor configuration (nominal power `P0`
non-negative), every sequence of positive time steps and rod reactivities,
and every non-negative initial power fraction, the power fraction stored in
the model after reset followed by any number of `step` calls is
non-negative, and the thermal power returned by every `step` call along the
way is non-negative. -/
theorem reactor_power_nonneg (m : ReactorModel) (initial_power_fraction : ℚ)
    (inputs : List (ℚ × ℚ))
    (hpf : 0 ≤ initial_power_fraction) (hP0 : 0 ≤ m.P0)
    (_hdt : ∀ x ∈ inputs, 0 < x.1) :
    0 ≤ ((m.reset initial_power_fraction).run inputs).1.power_level ∧
      ∀ y ∈ ((m.reset initial_power_fraction).run inputs).2, 0 ≤ y := by
  have h1 : 0 ≤ (m.reset initial_power_fraction).power_level := hpf
  have h2 : 0 ≤ (m.reset initial_power_fraction).P0 := hP0
  exact ReactorModel.run_nonneg inputs _ h1 h2

/-- A concrete single-delay-group reactor configuration used to exercise
the claim theorems on explicit inputs. -/
def rmW : ReactorModel :=
  { beta_i := [0.003], lambda_i := [0.1], Lambda := 0.001, beta_total := 0.003,
    alpha_f := -0.00001, alpha_c := -0.00002, C_f := 100, C_c := 200, Omega := 5,
    P0 := 3000, T_inlet := 290, T_coolant0 := 306, T_fuel0 := 800,
    power_level := 0, precursor_concentrations := [0], T_fuel := 0, T_moderator := 0 }

/-- Witness for C1 at a concrete configuration, initial power 1 and a
single step of 0.02 s with 100 pcm of rod reactivity. -/
theorem reactor_power_nonneg_witness :
    (0 : ℚ) ≤ 1 ∧ (0 : ℚ) ≤ rmW.P0 ∧
      (0 ≤ ((rmW.reset 1).run [(0.02, 0.001)]).1.power_level ∧
        ∀ y ∈ ((rmW.reset 1).run [(0.02, 0.001)]).2, 0 ≤ y) :=
  ⟨by norm_num, by norm_num [rmW],
    reactor_power_nonneg rmW 1 [(0.02, 0.001)] (by norm_num) (by norm_num [rmW])
      (by norm_num)⟩

/-- A minimal reactor state on which the updated-power and start-of-step
precursor updates differ: one delay group, `Lambda = 1`, unit decay
constant, power 1, zero precursors, 2 units of rod reactivity, `dt = 1`. -/
def rmC3 : ReactorModel :=
  { beta_i := [1], lambda_i := [1], Lambda := 1, beta_total := 1,
    alpha_f := 0, alpha_c := 0, C_f := 1, C_c := 1, Omega := 0,
    P0 := 1, T_inlet := 0, T_coolant0 := 0, T_fuel0 := 0,
    power_level := 1, precursor_concentrations := [0], T_fuel := 0, T_moderator := 0 }

/-- Counterexample to claim C3 as stated: the precursor concentrations
produced by `step` differ from the explicit-Euler update whose production
term is evaluated at the start-of-step power (the code yields `[2]`, the
claimed update `[1]`). -/
theorem reactor_step_not_explicit_euler :
    (rmC3.step 1 2).1.precursor_concentrations ≠ eulerPrecursorsSpec rmC3 1 := by
  norm_num [rmC3, ReactorModel.step, eulerPrecursorsSpec]

/-- Claim C3 as amended: `step` advances the power by one explicit-Euler
step with the power derivative evaluated at the start-of-step state
(followed by the non-negativity clamp), but each precursor derivative is
formed from the already-updated (pre-clamp) power together with the
start-of-step precursor concentrations. -/
theorem reactor_step_semi_implicit (m : ReactorModel) (dt rod_reactivity : ℚ) :
    (m.step dt rod_reactivity).1.power_level =
      max 0 (m.power_level +
        (((m.alpha_f * (m.T_fuel - m.T_fuel0) + m.alpha_c * (m.T_moderator - m.T_coolant0)
            + rod_reactivity - m.beta_total) / m.Lambda) * m.power_level +
          (List.zipWith (fun l c => l * c) m.lambda_i m.precursor_concentrations).sum) * dt) ∧
    (m.step dt rod_reactivity).1.precursor_concentrations =
      List.zipWith (fun bl c =>
          c + ((bl.1 / m.Lambda) *
            (m.power_level +
              (((m.alpha_f * (m.T_fuel - m.T_fuel0) + m.alpha_c * (m.T_moderator - m.T_coolant0)
                  + rod_reactivity - m.beta_total) / m.Lambda) * m.power_level +
                (List.zipWith (fun l c => l * c) m.lambda_i m.precursor_concentrations).sum) * dt)
            - bl.2 * c) * dt)
        (m.beta_i.zip m.lambda_i) m.precursor_concentrations :=
  ⟨rfl, rfl⟩

/-- Claim C4: when the per-unit speed is exactly 1 and the mechanical power
equals the electrical demand read from the active load profile at this
call, the computed per-unit speed derivative is 0, and after the step the
per-unit speed is still 1 and the frequency is nominal. -/
theorem grid_step_equilibrium (g : GridModel) (dt mechanical_power_mw time_s : ℚ)
    (step_num : ℤ) (homega : g.omega_pu = 1)
    (hbal : mechanical_power_mw = g.load_profile_func time_s step_num) :
    g.d_omega_pu_dt mechanical_power_mw time_s step_num = 0 ∧
    (g.step dt mechanical_power_mw time_s step_num).omega_pu = 1 ∧
    (g.step dt mechanical_power_mw time_s step_num).frequency = g.f_nominal := by
  have hd : g.d_omega_pu_dt mechanical_power_mw time_s step_num = 0 := by
    simp [GridModel.d_omega_pu_dt, homega, hbal]
  refine ⟨hd, ?_, ?_⟩
  · simp [GridModel.step, hd, homega]
  · simp [GridModel.step, hd, homega]

/-- A concrete grid state at per-unit speed 1 with a constant 100 MW
profile. -/
def gmW : GridModel :=
  { H := 5, D := 1, f_nominal := 60, S_base := 3500, frequency := 60,
    omega_pu := 1, delta := 0, current_demand := 100,
    load_profile_func := fun _ _ => 100 }

/-- Witness for C4 at the concrete balanced state. -/
theorem grid_step_equilibrium_witness :
    gmW.omega_pu = 1 ∧
      (gmW.d_omega_pu_dt 100 0 0 = 0 ∧ (gmW.step 0.02 100 0 0).omega_pu = 1 ∧
        (gmW.step 0.02 100 0 0).frequency = gmW.f_nominal) :=
  ⟨rfl, grid_step_equilibrium gmW 0.02 100 0 0 rfl rfl⟩

/-- Claim C5: whatever the regulator's internal state (integral, setpoint,
time step) and however large the temperature error, the rod reactivity
returned by `ReactorController.step` stays inside the configured symmetric
limits `[-0.005, 0.005]`. -/
theorem regulator_output_clamped (c : ReactorController) (current_moderator_temp : ℚ)
    (hlim : c.reactivity_limits = (-0.005, 0.005)) :
    -0.005 ≤ (c.step current_moderator_temp).2 ∧
      (c.step current_moderator_temp).2 ≤ 0.005 := by
  unfold ReactorController.step
  split
  · constructor <;> norm_num
  · simp only [hlim]
    exact ⟨le_npClip _ _ _ (by norm_num), npClip_le _ _ _⟩

/-- Witness for C5: a freshly constructed regulator with a large integral
state and an extreme temperature input. -/
theorem regulator_output_clamped_witness :
    ((ReactorController.init 0.02).reset 300).reactivity_limits = (-0.005, 0.005) ∧
      (-0.005 ≤ (((ReactorController.init 0.02).reset 300).step 1000000).2 ∧
        (((ReactorController.init 0.02).reset 300).step 1000000).2 ≤ 0.005) :=
  ⟨rfl, regulator_output_clamped _ 1000000 rfl⟩

/-- Whether an `Except` value is a success (a construction that did not
raise). -/
def exceptIsOk {ε α : Type} : Except ε α → Bool
  | .ok _ => true
  | .error _ => false

/-- The controller produced by `PIDController.__init__` from an empty
configuration dictionary and `dt = 0.02`: every parameter takes its
default. -/
def pidDefaultW : PIDController :=
  { kp := 0.20, ki := 0.04, kd := 0.05, setpoint := 1800.0,
    output_min := 0, output_max := 1, deriv_filter_tau := 0.05,
    use_filter := true, dt := 0.02,
    integral := 0, previous_error := 0, derivative_state := 0 }

/-- Counterexample to claim C6 as stated: an empty configuration mapping is
not a non-empty mapping, yet construction with it and a positive time step
succeeds silently, returning the all-defaults controller instead of
raising. -/
theorem pid_init_empty_config_succeeds :
    PIDController.init (PyConfig.dict []) 0.02 = Except.ok pidDefaultW := by
  norm_num [PIDController.init, BaseController.validateInit, getFloatParam,
    Except.bind, bind, List.lookup, pidDefaultW]

/-- Claim C6 as amended: constructing a controller through the
`BaseController` interface with a configuration that is not a mapping at
all, or with a non-positive time step, immediately raises; it never
silently succeeds with such inputs.  (An empty mapping is accepted, with
defaults applied.) -/
theorem controller_init_rejects_invalid (config : PyConfig) (dt : ℚ)
    (h : config = PyConfig.notDict ∨ dt ≤ 0) :
    exceptIsOk (BaseController.validateInit config dt) = false ∧
      exceptIsOk (PIDController.init config dt) = false := by
  cases config with
  | notDict => exact ⟨rfl, rfl⟩
  | dict entries =>
      rcases h with h | h
      · exact absurd h (by simp)
      · have hv : BaseController.validateInit (PyConfig.dict entries) dt =
            Except.error "ValueError: Time step dt must be a positive number." := by
          simp [BaseController.validateInit, h]
        constructor
        · rw [hv]; rfl
        · unfold PIDController.init
          rw [hv]
          rfl

/-- Witness for the amended C6 at a non-mapping configuration and a
positive time step. -/
theorem controller_init_rejects_invalid_witness :
    (PyConfig.notDict = PyConfig.notDict ∨ (1 : ℚ) ≤ 0) ∧
      (exceptIsOk (BaseController.validateInit PyConfig.notDict 1) = false ∧
        exceptIsOk (PIDController.init PyConfig.notDict 1) = false) :=
  ⟨Or.inl rfl, controller_init_rejects_invalid PyConfig.notDict 1 (Or.inl rfl)⟩

/-- Claim C9: on an observation too short to contain the measurement index
4, a constructed `PIDController` (positive `dt`, ordered output limits)
does not fail: it substitutes the setpoint for the measurement — so the
stored error, and with it the proportional error, is zero — and still
returns an action clamped to `[output_min, output_max]`. -/
theorem pid_step_short_observation (c : PIDController) (observation : List ℚ)
    (hobs : observation.length < 5) (hdt : 0 < c.dt)
    (hlim : c.output_min ≤ c.output_max) :
    (c.step observation).1.previous_error = 0 ∧
      c.output_min ≤ (c.step observation).2 ∧
      (c.step observation).2 ≤ c.output_max := by
  have hnone : observation[4]? = none := by
    rw [List.getElem?_eq_none]
    omega
  unfold PIDController.step
  rw [if_neg (not_le.mpr hdt)]
  refine ⟨?_, le_npClip _ _ _ hlim, npClip_le _ _ _⟩
  show c.setpoint - (observation[4]?).getD c.setpoint = 0
  rw [hnone]
  exact sub_self _

/-- Witness for C9: the all-defaults controller and an empty observation
vector. -/
theorem pid_step_short_observation_witness :
    ([] : List ℚ).length < 5 ∧ (0 : ℚ) < pidDefaultW.dt ∧
      pidDefaultW.output_min ≤ pidDefaultW.output_max ∧
      ((pidDefaultW.step []).1.previous_error = 0 ∧
        pidDefaultW.output_min ≤ (pidDefaultW.step []).2 ∧
        (pidDefaultW.step []).2 ≤ pidDefaultW.output_max) :=
  ⟨by norm_num, by norm_num [pidDefaultW], by norm_num [pidDefaultW],
    pid_step_short_observation pidDefaultW [] (by norm_num)
      (by norm_num [pidDefaultW]) (by norm_num [pidDefaultW])⟩

/-- Claim C7: the load profile installed for scenario
`sudden_load_increase_5pct` returns the nominal initial load strictly
before the 20 s step time and 1.05 times it at and after the step time,
whatever the step-index argument. -/
theorem sudden_load_scenario_profile (core_config : CoreConfig) (sim_dt : ℚ)
    (hdt : simDt core_config = some sim_dt) (time_s : ℚ) (step_num : ℤ) :
    (List.lookup "sudden_load_increase_5pct" (get_scenarios core_config)).map
        (fun sp => sp.load_profile_func time_s step_num) =
      some (if 20 ≤ time_s then initialLoadBase core_config * 1.05
            else initialLoadBase core_config) := by
  unfold get_scenarios
  rw [hdt]
  show some (step_load_change (initialLoadBase core_config)
      (initialLoadBase core_config * 1.05) 20.0 time_s step_num) = _
  unfold step_load_change
  norm_num

/-- A minimal core configuration carrying only the required simulation
time step. -/
def cfgW : CoreConfig := [("simulation", [("dt", 0.02)])]

/-- Witness for C7 at the concrete configuration, evaluated at
`time_s = 25`. -/
theorem sudden_load_scenario_profile_witness :
    simDt cfgW = some 0.02 ∧
      (List.lookup "sudden_load_increase_5pct" (get_scenarios cfgW)).map
          (fun sp => sp.load_profile_func 25 0) =
        some (if (20 : ℚ) ≤ 25 then initialLoadBase cfgW * 1.05
              else initialLoadBase cfgW) :=
  ⟨rfl, sudden_load_scenario_profile cfgW 0.02 rfl 25 0⟩

/-- Claim C8: every scenario specification returned by `get_scenarios`
carries a `reset_options` mapping; for every scenario whose definition did
not specify reset options (all but `baseline_steady_state`,
`gradual_load_increase_10pct` and `deceptive_sensor_noise`) it is the
empty mapping. -/
theorem scenarios_have_reset_options (core_config : CoreConfig) :
    (get_scenarios core_config).all (fun ns =>
      ns.2.reset_options.isSome &&
        (["baseline_steady_state", "gradual_load_increase_10pct",
            "deceptive_sensor_noise"].contains ns.1 ||
          decide (ns.2.reset_options = some []))) = true := by
  unfold get_scenarios
  cases h : simDt core_config with
  | none => rfl
  | some sim_dt => rfl

/-- Claim C10: when the core configuration lacks the required
`simulation`/`dt` entry (the `KeyError` path), `get_scenarios` returns the
empty mapping instead of raising. -/
theorem get_scenarios_missing_key_empty (core_config : CoreConfig)
    (h : simDt core_config = none) : get_scenarios core_config = [] := by
  unfold get_scenarios
  rw [h]

/-- Witness for C10 at the empty configuration. -/
theorem get_scenarios_missing_key_empty_witness :
    simDt [] = none ∧ get_scenarios [] = [] :=
  ⟨rfl, get_scenarios_missing_key_empty [] rfl⟩

namespace MetricsEngine

lemma dictSet_map_fst (m : List (String × Option ℚ)) (k : String) (v : Option ℚ)
    (h : k ∈ m.map Prod.fst) : (dictSet m k v).map Prod.fst = m.map Prod.fst := by
  induction m with
  | nil => simp at h
  | cons p rest ih =>
      obtain ⟨k', v'⟩ := p
      by_cases hk : k' = k
      · simp [dictSet, hk]
      · simp only [dictSet, if_neg hk, List.map_cons]
        simp only [List.map_cons, List.mem_cons] at h
        rcases h with h | h
        · exact absurd h.symm hk
        · rw [ih h]

lemma runBody_ok_map_fst (assigns : List (String × Except Unit (Option ℚ))) :
    ∀ m m' : List (String × Option ℚ),
      (∀ x ∈ assigns, x.1 ∈ m.map Prod.fst) → runBody m assigns = .ok m' →
        m'.map Prod.fst = m.map Prod.fst := by
  induction assigns with
  | nil =>
      intro m m' _ h
      simp only [runBody] at h
      cases h
      rfl
  | cons x rest ih =>
      intro m m' hk h
      obtain ⟨k, o⟩ := x
      match o with
      | .error e => simp [runBody] at h
      | .ok none =>
          exact ih m m' (fun y hy => hk y (List.mem_cons_of_mem _ hy))
            (by simpa [runBody] using h)
      | .ok (some v) =>
          have hmem : k ∈ m.map Prod.fst := hk (k, .ok (some v)) (List.mem_cons_self _ _)
          have hrest : ∀ y ∈ rest, y.1 ∈ (dictSet m k (some v)).map Prod.fst := by
            intro y hy
            rw [dictSet_map_fst m k (some v) hmem]
            exact hk y (List.mem_cons_of_mem _ hy)
          have := ih (dictSet m k (some v)) m' hrest (by simpa [runBody] using h)
          rw [this, dictSet_map_fst m k (some v) hmem]

lemma runBody_error_of_exists (assigns : List (String × Except Unit (Option ℚ))) :
    ∀ m : List (String × Option ℚ),
      (∃ x ∈ assigns, x.2 = Except.error ()) → runBody m assigns = .error () := by
  induction assigns with
  | nil =>
      intro m h
      simp at h
  | cons x rest ih =>
      intro m h
      obtain ⟨k, o⟩ := x
      match o with
      | .error e => rfl
      | .ok none =>
          apply ih
          rcases h with ⟨y, hy, hyerr⟩
          rcases List.mem_cons.mp hy with rfl | hy'
          · exact absurd hyerr (by simp)
          · exact ⟨y, hy', hyerr⟩
      | .ok (some v) =>
          apply ih
          rcases h with ⟨y, hy, hyerr⟩
          rcases List.mem_cons.mp hy with rfl | hy'
          · exact absurd hyerr (by simp)
          · exact ⟨y, hy', hyerr⟩

lemma bodyKeys_subset : ∀ k ∈ bodyKeys, k ∈ METRIC_KEYS := by
  intro k hk
  fin_cases hk <;> simp [METRIC_KEYS]

lemma map_fst_nan_map :
    ((METRIC_KEYS.map (fun k => (k, (none : Option ℚ)))).map Prod.fst) = METRIC_KEYS := by
  rfl

lemma mem_nan_map_snd (kv : String × Option ℚ)
    (h : kv ∈ METRIC_KEYS.map (fun k => (k, (none : Option ℚ)))) : kv.2 = none := by
  rcases List.mem_map.mp h with ⟨k, _, rfl⟩
  rfl

end MetricsEngine

/-- Claim C2: `MetricsEngine.calculate` is total (it cannot raise); its
result always binds exactly the fixed 24 metric keys, in order; and it is
the all-undefined (`none`) mapping whenever the input is empty, lacks the
`time_s` column, or has fewer than 20 rows, and whenever any metric
expression of the computation block raises. -/
theorem metrics_calculate_robust (results_df : DataFrame)
    (outcomes : List (Except Unit (Option ℚ))) :
    (MetricsEngine.calculate results_df outcomes).map Prod.fst =
        MetricsEngine.METRIC_KEYS ∧
      ((results_df.nrows = 0 ∨ results_df.columns = [] ∨
          "time_s" ∉ results_df.columns ∨ results_df.nrows < 20) →
        ∀ kv ∈ MetricsEngine.calculate results_df outcomes, kv.2 = none) ∧
      ((∃ x ∈ MetricsEngine.bodyKeys.zip outcomes, x.2 = Except.error ()) →
        ∀ kv ∈ MetricsEngine.calculate results_df outcomes, kv.2 = none) := by
  unfold MetricsEngine.calculate
  by_cases hg : results_df.nrows = 0 ∨ results_df.columns = [] ∨
      "time_s" ∉ results_df.columns ∨ results_df.nrows < 20
  · rw [if_pos hg]
    exact ⟨MetricsEngine.map_fst_nan_map,
      fun _ kv hkv => MetricsEngine.mem_nan_map_snd kv hkv,
      fun _ kv hkv => MetricsEngine.mem_nan_map_snd kv hkv⟩
  · rw [if_neg hg]
    cases hrun : MetricsEngine.runBody
        (MetricsEngine.METRIC_KEYS.map (fun k => (k, (none : Option ℚ))))
        (MetricsEngine.bodyKeys.zip outcomes) with
    | ok m' =>
        refine ⟨?_, fun hcond => absurd hcond hg, fun herr => ?_⟩
        · have hkeys : ∀ x ∈ MetricsEngine.bodyKeys.zip outcomes,
              x.1 ∈ (MetricsEngine.METRIC_KEYS.map
                (fun k => (k, (none : Option ℚ)))).map Prod.fst := by
            intro x hx
            rw [MetricsEngine.map_fst_nan_map]
            exact MetricsEngine.bodyKeys_subset x.1 (List.of_mem_zip hx).1
          rw [MetricsEngine.runBody_ok_map_fst _ _ _ hkeys hrun]
          exact MetricsEngine.map_fst_nan_map
        · have := MetricsEngine.runBody_error_of_exists
            (MetricsEngine.bodyKeys.zip outcomes)
            (MetricsEngine.METRIC_KEYS.map (fun k => (k, (none : Option ℚ)))) herr
          rw [hrun] at this
          exact absurd this (by simp)
    | error e =>
        exact ⟨MetricsEngine.map_fst_nan_map,
          fun hcond => absurd hcond hg,
          fun _ kv hkv => MetricsEngine.mem_nan_map_snd kv hkv⟩

/-- Witness for C2: a five-row frame containing only the time column and an
empty outcome list; the result is the all-undefined mapping with exactly
the fixed key set. -/
theorem metrics_calculate_robust_witness :
    (MetricsEngine.calculate ⟨["time_s"], 5⟩ []).map Prod.fst =
        MetricsEngine.METRIC_KEYS ∧
      ∀ kv ∈ MetricsEngine.calculate ⟨["time_s"], 5⟩ [], kv.2 = none :=
  ⟨(metrics_calculate_robust ⟨["time_s"], 5⟩ []).1,
    (metrics_calculate_robust ⟨["time_s"], 5⟩ []).2.1
      (Or.inr (Or.inr (Or.inr (by norm_num))))⟩
